import Mathlib

/-!
Verification of the clawdwatch monitoring engine (check runner, assertion
evaluator, alert state machine, orchestrator) against its specification.

The TypeScript sources under src/engine are shallowly embedded below:
pure functions become Lean functions; the impure time source
(new Date().toISOString()) and external collaborators (fetch, RegExp,
TextDecoder, D1/R2/Analytics-Engine bindings) become explicit parameters
or oracle functions; machine numbers are modelled as Nat (counters, sizes,
status codes, millisecond durations never go negative or overflow in the
modelled code paths); throwing calls return Except.
-/

namespace Clawdwatch

/-! ## Data model (src/types.ts and the v2 type appendix) -/

/-- CheckStatus = 'unknown' | 'healthy' | 'degraded' | 'unhealthy'. -/
inductive CheckStatus where
  | unknown
  | healthy
  | degraded
  | unhealthy
deriving DecidableEq, Repr

/-- HistoryEntry: timestamp, status, responseTimeMs, error. -/
structure HistoryEntry where
  timestamp : String
  status : CheckStatus
  responseTimeMs : Nat
  error : Option String
deriving DecidableEq, Repr

/-- CheckState: per-target persisted health state.  `history` is optional at
runtime (the v2 `createEmptyCheckState` and the R2-loaded legacy states omit
it), which is why `computeTransition` normalizes it with `?? []`. -/
structure CheckState where
  status : CheckStatus
  consecutiveFailures : Nat
  lastCheck : Option String
  lastSuccess : Option String
  lastError : Option String
  responseTimeMs : Option Nat
  history : Option (List HistoryEntry)
deriving DecidableEq, Repr

/-- CheckResult: outcome of one probe. -/
structure CheckResult where
  id : String
  success : Bool
  statusCode : Option Nat
  responseTimeMs : Nat
  error : Option String
deriving DecidableEq, Repr

/-- AlertType = 'failure' | 'recovery'. -/
inductive AlertType where
  | failure
  | recovery
deriving DecidableEq, Repr

/-! ## src/engine/state.ts -/

/-- `createEmptyCheckState` (state.ts lines 14-23): fresh `unknown` state;
the returned object has no `history` property. -/
def createEmptyCheckState : CheckState :=
  { status := .unknown
    consecutiveFailures := 0
    lastCheck := none
    lastSuccess := none
    lastError := none
    responseTimeMs := none
    history := none }

/-! ## src/engine/alerts.ts -/

/-- Return type of `computeTransition`. -/
structure TransitionResult where
  newState : CheckState
  alertType : Option AlertType
deriving DecidableEq, Repr

/-- `computeTransition` (alerts.ts lines 23-65).  The impure
`new Date().toISOString()` is passed in as `now`. -/
def computeTransition (state : CheckState) (result : CheckResult)
    (threshold : Nat) (now : String) : TransitionResult :=
  let updated : CheckState :=
    { state with
      history := some (state.history.getD [])
      lastCheck := some now
      responseTimeMs := some result.responseTimeMs }
  if result.success then
    let wasUnhealthy := state.status = .unhealthy
    { newState :=
        { updated with
          status := .healthy
          consecutiveFailures := 0
          lastSuccess := some now
          lastError := none }
      alertType := if wasUnhealthy then some .recovery else none }
  else
    let updated :=
      { updated with
        consecutiveFailures := state.consecutiveFailures + 1
        lastError := result.error }
    if threshold ≤ updated.consecutiveFailures then
      let wasAlreadyUnhealthy := state.status = .unhealthy
      { newState := { updated with status := .unhealthy }
        alertType := if wasAlreadyUnhealthy then none else some .failure }
    else
      { newState := { updated with status := .degraded }
        alertType := none }

/-- Iterated application of `computeTransition`: the state after `k` ticks,
where tick `i` consumes result `res i` at time `nows i`. -/
def iterateTransitions (res : Nat → CheckResult) (nows : Nat → String)
    (threshold : Nat) (s : CheckState) : Nat → CheckState
  | 0 => s
  | k + 1 =>
    (computeTransition (iterateTransitions res nows threshold s k) (res k)
      threshold (nows k)).newState

/-- The alert produced on tick `k + 1` (0-based tick index `k`) of the
iteration. -/
def alertAt (res : Nat → CheckResult) (nows : Nat → String)
    (threshold : Nat) (s : CheckState) (k : Nat) : Option AlertType :=
  (computeTransition (iterateTransitions res nows threshold s k) (res k)
    threshold (nows k)).alertType

/-! ## src/engine/runner.ts -/

/-- JavaScript `String.prototype.includes` on the underlying character lists:
helper deciding whether `pat` occurs at the very start of `s`. -/
def charsStartWith : List Char → List Char → Bool
  | [], _ => true
  | _ :: _, [] => false
  | a :: as, b :: bs => a = b && charsStartWith as bs

/-- Substring occurrence anywhere in `s` (JS `includes` semantics: the empty
pattern occurs in every string). -/
def charsInclude (pat : List Char) : List Char → Bool
  | [] => charsStartWith pat []
  | c :: rest => charsStartWith pat (c :: rest) || charsInclude pat rest

/-- `s.includes(pat)` of JavaScript. -/
def strIncludes (s pat : String) : Bool :=
  charsInclude pat.toList s.toList

/-- String-assertion operators handled by `evaluateStringAssertion`
(runner.ts lines 154-180). -/
inductive StringOp where
  | is
  | isNot
  | contains
  | notContains
  | matches
deriving DecidableEq, Repr

/-- Status-code assertion operators ('is' | 'isNot'). -/
inductive CodeOp where
  | is
  | isNot
deriving DecidableEq, Repr

/-- Assertion: tagged variant over statusCode / header / body / responseTime
(types.ts).  The responseTime operator is always 'lessThan'. -/
inductive Assertion where
  | statusCode (operator : CodeOp) (value : Nat)
  | header (name : String) (operator : StringOp) (value : String)
  | body (operator : StringOp) (value : String)
  | responseTime (value : Nat)
deriving DecidableEq, Repr

/-- The response descriptor consumed by the assertion evaluator: the status
and the `Headers.get` lookup (returns null for an absent header). -/
structure ResponseDesc where
  status : Nat
  headers : String → Option String

/-- `evaluateStringAssertion` (runner.ts lines 154-180).  `regexTest` is the
oracle for the platform `new RegExp(expected).test(actual)` call. -/
def evaluateStringAssertion (regexTest : String → String → Bool)
    (operator : StringOp) (actual expected : String) (missing : Bool) :
    Option String :=
  match operator with
  | .is =>
    if actual ≠ expected then
      some ("expected \"" ++ expected ++ "\", got \"" ++ actual ++ "\"")
    else none
  | .isNot =>
    if actual = expected then some ("expected not \"" ++ expected ++ "\"")
    else none
  | .contains =>
    if missing || !strIncludes actual expected then
      some ("expected to contain \"" ++ expected ++ "\"")
    else none
  | .notContains =>
    if strIncludes actual expected then
      some ("expected not to contain \"" ++ expected ++ "\"")
    else none
  | .matches =>
    if !regexTest expected actual then
      some ("expected to match /" ++ expected ++ "/")
    else none

/-- One arm of the `switch` in `evaluateAssertions` (runner.ts lines
109-148): the failure message pushed for a single assertion, if any. -/
def evaluateAssertion (regexTest : String → String → Bool)
    (response : ResponseDesc) (responseTimeMs : Nat) (body : Option String) :
    Assertion → Option String
  | .statusCode operator value =>
    match operator with
    | .is =>
      if response.status ≠ value then
        some ("Expected status " ++ toString value ++ ", got " ++
          toString response.status)
      else none
    | .isNot =>
      if response.status = value then
        some ("Expected status not " ++ toString value)
      else none
  | .header name operator value =>
    let actual := response.headers name
    match evaluateStringAssertion regexTest operator (actual.getD "") value
        actual.isNone with
    | some failed => some ("Header \"" ++ name ++ "\": " ++ failed)
    | none => none
  | .body operator value =>
    match body with
    | none => some "Body assertion requires response body but body was not read"
    | some b =>
      match evaluateStringAssertion regexTest operator b value false with
      | some failed => some ("Body: " ++ failed)
      | none => none
  | .responseTime value =>
    if value ≤ responseTimeMs then
      some ("Response time " ++ toString responseTimeMs ++ "ms >= " ++
        toString value ++ "ms")
    else none

/-- `evaluateAssertions` (runner.ts lines 101-152): the for-loop collecting
every failure message in order. -/
def evaluateAssertions (regexTest : String → String → Bool)
    (assertions : List Assertion) (response : ResponseDesc)
    (responseTimeMs : Nat) (body : Option String) : List String :=
  match assertions with
  | [] => []
  | a :: rest =>
    match evaluateAssertion regexTest response responseTimeMs body a with
    | some failed =>
      failed :: evaluateAssertions regexTest rest response responseTimeMs body
    | none => evaluateAssertions regexTest rest response responseTimeMs body

/-- `MAX_BODY_SIZE = 64 * 1024` (runner.ts line 11). -/
def MAX_BODY_SIZE : Nat := 64 * 1024

/-- The read loop of `readBodyCapped` (runner.ts lines 189-194) over the
stream's chunk sequence: while fewer than `MAX_BODY_SIZE` bytes are
accumulated, read the next whole chunk. -/
def readBodyLoop : List (List Nat) → Nat → List Nat
  | [], _ => []
  | chunk :: rest, totalSize =>
    if totalSize < MAX_BODY_SIZE then
      chunk ++ readBodyLoop rest (totalSize + chunk.length)
    else []

/-- `readBodyCapped` (runner.ts lines 182-199) at the byte level: the bytes
captured from the response stream (an absent body is the empty stream).
Decoding the bytes to a string is a separate oracle. -/
def readBodyCapped (chunks : List (List Nat)) : List Nat :=
  readBodyLoop chunks 0

/-- `check.assertions.some((a) => a.type === 'body')` (runner.ts line 65). -/
def isBodyAssertion : Assertion → Bool
  | .body _ _ => true
  | _ => false

/-- `needsBody` flag (runner.ts line 65). -/
def needsBody (assertions : List Assertion) : Bool :=
  assertions.any isBodyAssertion

/-- The check-config fields the engine consumes (v2 CheckConfig). -/
structure CheckConfig where
  id : String
  name : String
  assertions : List Assertion
  retry_count : Nat
  retry_delay_ms : Nat
  timeout_ms : Nat
  failure_threshold : Nat
  group_id : Option String

/-- A fetched response: status line, header lookup, and body stream. -/
structure FetchResponse where
  status : Nat
  headers : String → Option String
  bodyChunks : List (List Nat)

/-- The descriptor handed to the assertion evaluator. -/
def FetchResponse.toDesc (r : FetchResponse) : ResponseDesc :=
  { status := r.status, headers := r.headers }

/-- Body capture of the success path of `executeCheck` (runner.ts lines
64-69): read the response body iff some assertion needs it; `decode` is the
TextDecoder oracle. -/
def executeCheckBody (decode : List Nat → String) (check : CheckConfig)
    (response : FetchResponse) : Option String :=
  if needsBody check.assertions then
    some (decode (readBodyCapped response.bodyChunks))
  else none

/-- Default assertion substituted for an empty list (runner.ts lines
71-73). -/
def defaultAssertion : Assertion := .statusCode .is 200

/-- Success path of `executeCheck` (runner.ts lines 60-82): judge the
response and build the CheckResult. -/
def executeCheckSuccess (regexTest : String → String → Bool)
    (decode : List Nat → String) (check : CheckConfig)
    (response : FetchResponse) (responseTimeMs : Nat) : CheckResult :=
  let body := executeCheckBody decode check response
  let assertions :=
    if 0 < check.assertions.length then check.assertions
    else [defaultAssertion]
  let failures :=
    evaluateAssertions regexTest assertions response.toDesc responseTimeMs body
  { id := check.id
    success := failures.length = 0
    statusCode := some response.status
    responseTimeMs := responseTimeMs
    error :=
      if 0 < failures.length then some (String.intercalate "; " failures)
      else none }

/-- The timeout error string `Timeout after ${check.timeout_ms}ms`
(runner.ts line 93). -/
def timeoutErrorMessage (timeout_ms : Nat) : String :=
  "Timeout after " ++ toString timeout_ms ++ "ms"

/-- Catch path of `executeCheck` (runner.ts lines 83-95): classify the
thrown error's message and build the failed CheckResult. -/
def executeCheckCatch (check : CheckConfig) (responseTimeMs : Nat)
    (message : String) : CheckResult :=
  let isTimeout := strIncludes message "abort"
  { id := check.id
    success := false
    statusCode := none
    responseTimeMs := responseTimeMs
    error :=
      some (if isTimeout then timeoutErrorMessage check.timeout_ms
        else message) }

/-- The retry loop of `runCheck` (runner.ts lines 24-27).  `f i` is the
outcome of the `i`-th `executeCheck` call (0-based); `result` is the outcome
of the last call already made, `made` counts calls made so far, and `fuel`
is the number of retries still allowed.  Returns the final result and the
total number of attempts performed. -/
def runCheckLoop (f : Nat → CheckResult) (result : CheckResult) (made : Nat) :
    Nat → CheckResult × Nat
  | 0 => (result, made)
  | fuel + 1 =>
    if result.success then (result, made)
    else runCheckLoop f (f made) (made + 1) fuel

/-- `runCheck` (runner.ts lines 17-30): one initial attempt, then up to
`retry_count` retries, each only after a failure. -/
def runCheck (f : Nat → CheckResult) (retry_count : Nat) :
    CheckResult × Nat :=
  runCheckLoop f (f 0) 1 retry_count

/-! ## src/engine/orchestrator.ts -/

/-- The maintenance-window flags the orchestrator consults. -/
structure MaintenanceFlags where
  skip_checks : Bool
  suppress_alerts : Bool
deriving DecidableEq, Repr

/-- MonitoringState: per-target states plus last-run timestamp; the
`checks` record is modelled as an association list. -/
structure MonitoringState where
  checks : List (String × CheckState)
  lastRun : Option String
deriving DecidableEq, Repr

/-- `state.checks[check.id]` lookup. -/
def lookupState : List (String × CheckState) → String → Option CheckState
  | [], _ => none
  | (k, v) :: rest, id => if k = id then some v else lookupState rest id

/-- `state.checks[check.id] = newState` assignment (replace or append). -/
def insertState : List (String × CheckState) → String → CheckState →
    List (String × CheckState)
  | [], id, v => [(id, v)]
  | (k, w) :: rest, id, v =>
    if k = id then (id, v) :: rest else (k, w) :: insertState rest id v

/-- The external collaborators of `runMonitoringChecks`, as oracles keyed by
check id.  A collaborator call that throws is an `Except.error` carrying the
thrown message. -/
structure OrchestratorEnv where
  aePresent : Bool
  maintenance : String → Option MaintenanceFlags
  probeResult : String → CheckResult
  writeDataPoint : String → Except String Unit
  insertCheckResult : String → Except String Unit
  createIncident : String → Except String Unit
  resolveIncidents : String → Except String Unit
  onAlert : Option (String → Except String Unit)
  pruneHistory : Except String Unit

/-- The loop body of `runMonitoringChecks` (orchestrator.ts lines 52-133)
for one check.  The accumulator carries the in-memory state map and a trace
of the side effects performed.  `ae.writeDataPoint` (lines 73-88) is the one
side effect the source does not guard, so its failure propagates; the
`insertCheckResult`, incident, and alert calls carry `.catch`/`try` guards
and are swallowed into the trace. -/
def tickCheck (env : OrchestratorEnv) (now : String)
    (acc : List (String × CheckState) × List String) (check : CheckConfig) :
    Except String (List (String × CheckState) × List String) := do
  let (stateChecks, trace) := acc
  let maintenance := env.maintenance check.id
  if (maintenance.map (·.skip_checks)).getD false then
    return (stateChecks, trace ++ ["skip:" ++ check.id])
  let checkState := (lookupState stateChecks check.id).getD createEmptyCheckState
  let result := env.probeResult check.id
  let trace := trace ++ ["probe:" ++ check.id]
  let trace ←
    if env.aePresent then
      match env.writeDataPoint check.id with
      | .ok _ => pure (trace ++ ["metrics:" ++ check.id])
      | .error e => throw e
    else pure trace
  let trace := trace ++
    (match env.insertCheckResult check.id with
     | .ok _ => ["insert:" ++ check.id]
     | .error _ => ["insert-caught:" ++ check.id])
  let t := computeTransition checkState result check.failure_threshold now
  let stateChecks := insertState stateChecks check.id t.newState
  let trace := trace ++
    (match t.alertType with
     | some .failure =>
       match env.createIncident check.id with
       | .ok _ => ["incident-open:" ++ check.id]
       | .error _ => ["incident-open-caught:" ++ check.id]
     | some .recovery =>
       match env.resolveIncidents check.id with
       | .ok _ => ["incident-resolve:" ++ check.id]
       | .error _ => ["incident-resolve-caught:" ++ check.id]
     | none => [])
  let trace := trace ++
    (match t.alertType, env.onAlert,
        (maintenance.map (·.suppress_alerts)).getD false with
     | some _, some dispatch, false =>
       match dispatch check.id with
       | .ok _ => ["alert:" ++ check.id]
       | .error _ => ["alert-caught:" ++ check.id]
     | _, _, _ => [])
  return (stateChecks, trace)

/-- `runMonitoringChecks` (orchestrator.ts lines 30-143) after state load:
iterate the checks sequentially, stamp `lastRun`, persist the state in one
write, then best-effort prune.  An uncaught exception in the loop aborts the
whole tick before the persist. -/
def runMonitoringChecks (env : OrchestratorEnv) (checks : List CheckConfig)
    (state : MonitoringState) (now : String) :
    Except String (MonitoringState × List String) := do
  let (stateChecks, trace) ←
    checks.foldlM (tickCheck env now) (state.checks, ([] : List String))
  let newState : MonitoringState := { checks := stateChecks, lastRun := some now }
  let trace := trace ++ ["save"]
  let trace := trace ++
    (match env.pruneHistory with
     | .ok _ => ["prune"]
     | .error _ => ["prune-caught"])
  return (newState, trace)

/-! ## Concrete fixtures used by witnesses and counterexamples -/

/-- A failing probe result (the shape produced by a status assertion
failure). -/
def failRes : CheckResult :=
  { id := "c", success := false, statusCode := some 503, responseTimeMs := 200,
    error := some "Expected status 200, got 503" }

/-- A successful probe result. -/
def okRes : CheckResult :=
  { id := "c", success := true, statusCode := some 200, responseTimeMs := 100,
    error := none }

/-- A response with no headers at all. -/
def respNoHeaders : ResponseDesc :=
  { status := 200, headers := fun _ => none }

/-- A regex oracle that rejects everything (no claim below exercises the
`matches` operator at a concrete input). -/
def regexFalse : String → String → Bool := fun _ _ => false

/-- A minimal check config fixture. -/
def mkCfg (i : String) : CheckConfig :=
  { id := i, name := i, assertions := [], retry_count := 0,
    retry_delay_ms := 300, timeout_ms := 10000, failure_threshold := 2,
    group_id := none }

/-- Orchestrator environment in which the Analytics Engine binding is
present and its `writeDataPoint` throws for check `c1` only; every guarded
collaborator succeeds. -/
def envMetricsThrow : OrchestratorEnv :=
  { aePresent := true
    maintenance := fun _ => none
    probeResult := fun _ => okRes
    writeDataPoint := fun i => if i = "c1" then .error "AE write failed" else .ok ()
    insertCheckResult := fun _ => .ok ()
    createIncident := fun _ => .ok ()
    resolveIncidents := fun _ => .ok ()
    onAlert := none
    pruneHistory := .ok () }

/-- The same environment with a non-throwing metrics sink. -/
def envMetricsOk : OrchestratorEnv :=
  { envMetricsThrow with writeDataPoint := fun _ => .ok () }

/-- An attempt oracle whose first two probes fail and whose third
succeeds. -/
def retryF : Nat → CheckResult := fun i => if i < 2 then failRes else okRes

/-- A check config with one body assertion. -/
def bodyCfg : CheckConfig :=
  { mkCfg "b" with assertions := [.body .contains "ok"] }

/-- A response whose body stream has one three-byte chunk. -/
def resp3 : FetchResponse :=
  { status := 200, headers := fun _ => none, bodyChunks := [[1, 2, 3]] }

/-- A trivial TextDecoder oracle. -/
def decodeNil : List Nat → String := fun _ => ""

/-- The empty persisted monitoring state. -/
def emptyMonState : MonitoringState := { checks := [], lastRun := none }

/-- The side-effect trace of a tick outcome (empty for an aborted tick). -/
def traceOf (r : Except String (MonitoringState × List String)) :
    List String :=
  match r with
  | .ok (_, tr) => tr
  | .error _ => []

/-- The propagated exception of an aborted tick, if any. -/
def errorOf (r : Except String (MonitoringState × List String)) :
    Option String :=
  match r with
  | .error e => some e
  | .ok _ => none

/-- A persisted state that is currently down. -/
def downState : CheckState :=
  { createEmptyCheckState with
    status := .unhealthy
    consecutiveFailures := 2
    lastError := some "Expected status 200, got 503" }

/-- The spec's Check State invariant (§3): `consecutiveFailures = 0`
whenever the status is `healthy`, and `unhealthy` only when
`consecutiveFailures ≥ threshold`. -/
def checkStateInv (threshold : Nat) (s : CheckState) : Prop :=
  (s.status = .healthy → s.consecutiveFailures = 0) ∧
  (s.status = .unhealthy → threshold ≤ s.consecutiveFailures)

instance (threshold : Nat) (s : CheckState) :
    Decidable (checkStateInv threshold s) := by
  unfold checkStateInv
  infer_instance

/-! ## Helper lemmas about `computeTransition` -/

theorem computeTransition_fail_newState (s : CheckState) (r : CheckResult)
    (N : Nat) (now : String) (h : r.success = false) :
    (computeTransition s r N now).newState =
      { status := if N ≤ s.consecutiveFailures + 1 then .unhealthy else .degraded
        consecutiveFailures := s.consecutiveFailures + 1
        lastCheck := some now
        lastSuccess := s.lastSuccess
        lastError := r.error
        responseTimeMs := some r.responseTimeMs
        history := some (s.history.getD []) } := by
  simp only [computeTransition, h, Bool.false_eq_true, if_false]
  split <;> simp_all

theorem computeTransition_fail_alert (s : CheckState) (r : CheckResult)
    (N : Nat) (now : String) (h : r.success = false) :
    (computeTransition s r N now).alertType =
      if N ≤ s.consecutiveFailures + 1 then
        (if s.status = .unhealthy then none else some .failure)
      else none := by
  simp only [computeTransition, h, Bool.false_eq_true, if_false]
  split <;> simp_all

theorem computeTransition_success_newState (s : CheckState) (r : CheckResult)
    (N : Nat) (now : String) (h : r.success = true) :
    (computeTransition s r N now).newState =
      { status := .healthy
        consecutiveFailures := 0
        lastCheck := some now
        lastSuccess := some now
        lastError := none
        responseTimeMs := some r.responseTimeMs
        history := some (s.history.getD []) } := by
  simp [computeTransition, h]

theorem computeTransition_success_alert (s : CheckState) (r : CheckResult)
    (N : Nat) (now : String) (h : r.success = true) :
    (computeTransition s r N now).alertType =
      if s.status = .unhealthy then some .recovery else none := by
  simp [computeTransition, h]

theorem iterateTransitions_cf (res : Nat → CheckResult) (nows : Nat → String)
    (N : Nat) (s : CheckState) (hfail : ∀ i, (res i).success = false)
    (h0 : s.consecutiveFailures = 0) :
    ∀ k, (iterateTransitions res nows N s k).consecutiveFailures = k := by
  intro k
  induction k with
  | zero => simpa [iterateTransitions] using h0
  | succ k ih =>
    simp [iterateTransitions,
      computeTransition_fail_newState _ _ _ _ (hfail k), ih]

theorem iterateTransitions_status (res : Nat → CheckResult)
    (nows : Nat → String) (N : Nat) (s : CheckState)
    (hfail : ∀ i, (res i).success = false)
    (h0 : s.consecutiveFailures = 0) :
    ∀ k, 1 ≤ k → (iterateTransitions res nows N s k).status =
      (if N ≤ k then .unhealthy else .degraded) := by
  intro k hk
  obtain ⟨k, rfl⟩ := Nat.exists_eq_add_of_le hk
  rw [Nat.add_comm]
  simp [iterateTransitions,
    computeTransition_fail_newState _ _ _ _ (hfail k),
    iterateTransitions_cf res nows N s hfail h0 k]

/-! ## Claim theorems -/

/-- C1: on any failure, `computeTransition` increments
`consecutiveFailures` by exactly 1, sets the status to `unhealthy` iff the
updated counter reaches the threshold `N` and to `degraded` otherwise, and
fires a `failure` alert iff the new status is `unhealthy` while the prior
status was not; consequently, over consecutive failures from a
healthy/unknown baseline with `N ≥ 1`, the counter after `k` ticks is `k`,
the status is `unhealthy` iff `k ≥ N` (else `degraded`), and the `failure`
alert fires exactly on the tick where the counter first reaches `N`. -/
theorem C1_failure_transition (N : Nat) :
    (∀ (s : CheckState) (r : CheckResult) (now : String),
      r.success = false →
      (computeTransition s r N now).newState.consecutiveFailures =
        s.consecutiveFailures + 1 ∧
      ((computeTransition s r N now).newState.status = .unhealthy ↔
        N ≤ s.consecutiveFailures + 1) ∧
      ((computeTransition s r N now).newState.status = .degraded ↔
        s.consecutiveFailures + 1 < N) ∧
      ((computeTransition s r N now).alertType = some .failure ↔
        ((computeTransition s r N now).newState.status = .unhealthy ∧
          s.status ≠ .unhealthy))) ∧
    (∀ (res : Nat → CheckResult) (nows : Nat → String) (s : CheckState),
      (∀ i, (res i).success = false) →
      s.consecutiveFailures = 0 →
      (s.status = .healthy ∨ s.status = .unknown) →
      1 ≤ N →
      ∀ k, (iterateTransitions res nows N s k).consecutiveFailures = k ∧
        (1 ≤ k → (iterateTransitions res nows N s k).status =
          (if N ≤ k then .unhealthy else .degraded)) ∧
        (alertAt res nows N s k = some .failure ↔ k + 1 = N)) := by
  constructor
  · intro s r now h
    rw [computeTransition_fail_newState s r N now h,
      computeTransition_fail_alert s r N now h]
    refine ⟨rfl, ?_, ?_, ?_⟩
    · split <;> simp_all
    · split
      all_goals simp_all [Nat.lt_iff_add_one_le, Nat.not_le]
    · split
      · split <;> simp_all
      · simp_all
  · intro res nows s hfail h0 hbase hN k
    have hcf := iterateTransitions_cf res nows N s hfail h0
    have hst := iterateTransitions_status res nows N s hfail h0
    refine ⟨hcf k, hst k, ?_⟩
    have hstepstatus : (iterateTransitions res nows N s k).status = .unhealthy ↔
        (1 ≤ k ∧ N ≤ k) := by
      rcases Nat.eq_zero_or_pos k with hk | hk
      · subst hk
        simp only [iterateTransitions]
        rcases hbase with hb | hb <;> simp [hb]
      · rw [hst k hk]
        constructor
        · intro h
          refine ⟨hk, ?_⟩
          by_contra hn
          simp [if_neg hn] at h
        · rintro ⟨-, hl⟩
          simp [if_pos hl]
    rw [alertAt, computeTransition_fail_alert _ _ _ _ (hfail k), hcf k]
    constructor
    · intro h
      by_cases h1 : N ≤ k + 1
      · rw [if_pos h1] at h
        by_cases h2 : (iterateTransitions res nows N s k).status = .unhealthy
        · simp [h2] at h
        · have h3 := hstepstatus.not.mp h2
          omega
      · simp [if_neg h1] at h
    · intro hkN
      have h1 : N ≤ k + 1 := by omega
      have h2 : ¬(iterateTransitions res nows N s k).status = .unhealthy := by
        rw [hstepstatus]
        omega
      rw [if_pos h1, if_neg h2]

/-- C1 witness: at threshold 2 from the fresh state, one failure increments
the counter, and the failure alert fires on the second failing tick. -/
theorem C1_failure_transition_witness :
    (computeTransition createEmptyCheckState failRes 2 "t").newState.consecutiveFailures =
      createEmptyCheckState.consecutiveFailures + 1 ∧
    alertAt (fun _ => failRes) (fun _ => "t") 2 createEmptyCheckState 1 =
      some .failure := by
  refine ⟨((C1_failure_transition 2).1 createEmptyCheckState failRes "t"
    (by decide)).1, ?_⟩
  exact (((C1_failure_transition 2).2 (fun _ => failRes) (fun _ => "t")
    createEmptyCheckState (fun _ => rfl) (by decide)
    (Or.inr (by decide)) (by decide) 1).2.2).mpr (by decide)

/-- C2: on any success, `computeTransition` resets `consecutiveFailures` to
0, sets status `healthy`, clears `lastError`, updates `lastSuccess` to now,
and fires a `recovery` alert iff the prior status was `unhealthy`; a second
consecutive success stays `healthy` with no alert. -/
theorem C2_success_transition (s : CheckState) (r : CheckResult) (N : Nat)
    (now : String) (h : r.success = true) :
    (computeTransition s r N now).newState.consecutiveFailures = 0 ∧
    (computeTransition s r N now).newState.status = .healthy ∧
    (computeTransition s r N now).newState.lastError = none ∧
    (computeTransition s r N now).newState.lastSuccess = some now ∧
    ((computeTransition s r N now).alertType = some .recovery ↔
      s.status = .unhealthy) ∧
    (∀ (r' : CheckResult) (now' : String), r'.success = true →
      (computeTransition (computeTransition s r N now).newState r' N
        now').newState.status = .healthy ∧
      (computeTransition (computeTransition s r N now).newState r' N
        now').alertType = none) := by
  rw [computeTransition_success_newState s r N now h,
    computeTransition_success_alert s r N now h]
  refine ⟨rfl, rfl, rfl, rfl, ?_, ?_⟩
  · split <;> simp_all
  · intro r' now' h'
    rw [computeTransition_success_newState _ r' N now' h',
      computeTransition_success_alert _ r' N now' h']
    exact ⟨rfl, by simp⟩

/-- C2 witness: one success on an unhealthy state recovers with a recovery
alert; a second success stays healthy with no alert. -/
theorem C2_success_transition_witness :
    (computeTransition downState okRes 2 "t").newState.status = .healthy ∧
    (computeTransition downState okRes 2 "t").alertType = some .recovery ∧
    (computeTransition (computeTransition downState okRes 2 "t").newState
      okRes 2 "u").alertType = none := by
  have h := C2_success_transition downState okRes 2 "t" (by decide)
  exact ⟨h.2.1, h.2.2.2.2.1.mpr (by decide), (h.2.2.2.2.2 okRes "u" (by decide)).2⟩

/-- C3: the invariant "healthy implies a zero failure counter, unhealthy
implies a counter at or above the threshold" holds for the fresh state and
is preserved by every application of `computeTransition` with that
threshold. -/
theorem C3_invariant_preserved (N : Nat) :
    checkStateInv N createEmptyCheckState ∧
    ∀ (s : CheckState) (r : CheckResult) (now : String),
      checkStateInv N s →
      checkStateInv N (computeTransition s r N now).newState := by
  constructor
  · exact ⟨fun h => by simp [createEmptyCheckState] at h, fun h => by
      simp [createEmptyCheckState] at h⟩
  · intro s r now _
    cases h : r.success
    · rw [checkStateInv, computeTransition_fail_newState s r N now h]
      constructor
      · intro hst
        by_cases hc : N ≤ s.consecutiveFailures + 1 <;> simp [hc] at hst
      · intro hst
        by_cases hc : N ≤ s.consecutiveFailures + 1
        · simpa using hc
        · simp [hc] at hst
    · rw [checkStateInv, computeTransition_success_newState s r N now h]
      exact ⟨fun _ => rfl, fun hst => by simp at hst⟩

/-- C3 witness: the invariant holds after one failing tick on the fresh
state at threshold 2. -/
theorem C3_invariant_preserved_witness :
    checkStateInv 2 (computeTransition createEmptyCheckState failRes 2 "t").newState :=
  (C3_invariant_preserved 2).2 createEmptyCheckState failRes "t" (by decide)

/-- C10 counterexample: on a failing result, `computeTransition` does not
leave every field other than status, consecutiveFailures, lastError,
lastCheck and responseTimeMs unchanged — the `history` field of the fresh
state (absent, i.e. `none`) is normalized to the present empty list. -/
theorem C10_counterexample :
    ¬((computeTransition createEmptyCheckState failRes 2 "t").newState.history =
      createEmptyCheckState.history) := by decide

/-- C10 (amended): on any failing result, the new state keeps `lastSuccess`
unchanged, and besides status, consecutiveFailures, lastError, lastCheck and
responseTimeMs only `history` may differ — and only by normalizing an
absent history to the empty list (a present history is kept as is). -/
theorem C10_lastSuccess_frame (s : CheckState) (r : CheckResult) (N : Nat)
    (now : String) (h : r.success = false) :
    (computeTransition s r N now).newState.lastSuccess = s.lastSuccess ∧
    (computeTransition s r N now).newState.history =
      some (s.history.getD []) := by
  rw [computeTransition_fail_newState s r N now h]
  exact ⟨rfl, rfl⟩

/-- C10 witness: the frame property evaluated on the fresh state and a
concrete failing result. -/
theorem C10_lastSuccess_frame_witness :
    (computeTransition createEmptyCheckState failRes 2 "t").newState.lastSuccess =
      createEmptyCheckState.lastSuccess ∧
    (computeTransition createEmptyCheckState failRes 2 "t").newState.history =
      some (createEmptyCheckState.history.getD []) :=
  C10_lastSuccess_frame createEmptyCheckState failRes 2 "t" (by decide)

/-! ## Retry loop lemmas (C4) -/

theorem runCheckLoop_spec (f : Nat → CheckResult) :
    ∀ (fuel made : Nat) (result : CheckResult),
      result = f (made - 1) → 1 ≤ made →
      (∀ j, j + 1 < made → (f j).success = false) →
      made ≤ (runCheckLoop f result made fuel).2 ∧
      (runCheckLoop f result made fuel).2 ≤ made + fuel ∧
      (runCheckLoop f result made fuel).1 =
        f ((runCheckLoop f result made fuel).2 - 1) ∧
      (∀ j, j + 1 < (runCheckLoop f result made fuel).2 →
        (f j).success = false) := by
  intro fuel
  induction fuel with
  | zero =>
    intro made result hres hmade hprev
    exact ⟨Nat.le_refl _, Nat.le_refl _, hres, hprev⟩
  | succ fuel ih =>
    intro made result hres hmade hprev
    cases hs : result.success
    · have hred : runCheckLoop f result made (fuel + 1) =
          runCheckLoop f (f made) (made + 1) fuel := by
        simp [runCheckLoop, hs]
      have hprev' : ∀ j, j + 1 < made + 1 → (f j).success = false := by
        intro j hj
        rcases Nat.lt_succ_iff_lt_or_eq.mp hj with hj' | hj'
        · exact hprev j hj'
        · have : j = made - 1 := by omega
          subst this
          rw [← hres]
          exact hs
      obtain ⟨h1, h2, h3, h4⟩ :=
        ih (made + 1) (f made) (by simp) (Nat.le_add_left _ _) hprev'
      rw [hred]
      exact ⟨Nat.le_of_succ_le h1, by omega, h3, h4⟩
    · have hred : runCheckLoop f result made (fuel + 1) = (result, made) := by
        simp [runCheckLoop, hs]
      rw [hred]
      exact ⟨Nat.le_refl _, Nat.le_add_right _ _, hres, hprev⟩

/-- C4: with `retry_count = R`, `runCheck` performs between 1 and `R + 1`
probe attempts, every attempt before the last one failed (so a success
short-circuits), and the returned result is the result of the last attempt
performed. -/
theorem C4_retry_bound (f : Nat → CheckResult) (R : Nat) :
    1 ≤ (runCheck f R).2 ∧
    (runCheck f R).2 ≤ R + 1 ∧
    (runCheck f R).1 = f ((runCheck f R).2 - 1) ∧
    (∀ j, j + 1 < (runCheck f R).2 → (f j).success = false) := by
  have hr : runCheck f R = runCheckLoop f (f 0) 1 R := rfl
  rw [hr]
  obtain ⟨h1, h2, h3, h4⟩ :=
    runCheckLoop_spec f R 1 (f 0) rfl (Nat.le_refl 1) (by omega)
  exact ⟨h1, by omega, h3, h4⟩

/-- C4 witness: with two failing attempts then a success and `R = 5`, three
attempts are made, the first attempt had failed, and the returned result is
the third attempt's. -/
theorem C4_retry_bound_witness :
    (runCheck retryF 5).2 = 3 ∧
    (retryF 0).success = false ∧
    (runCheck retryF 5).1 = retryF ((runCheck retryF 5).2 - 1) := by
  refine ⟨by decide, ?_, (C4_retry_bound retryF 5).2.2.1⟩
  exact (C4_retry_bound retryF 5).2.2.2 0 (by decide)

/-! ## Missing-header behaviour (C5) -/

theorem charsStartWith_nil_right (pat : List Char) :
    charsStartWith pat [] = true ↔ pat = [] := by
  cases pat <;> simp [charsStartWith]

theorem strIncludes_empty_iff (v : String) :
    strIncludes "" v = true ↔ v = "" := by
  have h : strIncludes "" v = charsStartWith v.toList [] := rfl
  rw [h, charsStartWith_nil_right, ← String.toList_inj]
  exact Iff.rfl

/-- C5 counterexample: a `notContains` header assertion against a response
missing that header passes (empty failure list) for the nonempty expected
value "x" — it is not "always a failure". -/
theorem C5_counterexample :
    evaluateAssertions regexFalse
      [Assertion.header "x-h" StringOp.notContains "x"]
      respNoHeaders 100 none = [] := by decide

/-- C5 (amended): against a response missing the named header, `is` and
`isNot` compare the expected value with the empty string (`is` passes iff
the expected value is empty, `isNot` iff it is nonempty); `contains` always
fails; `notContains` also compares against the empty string, so it fails iff
the expected value is the empty string and passes for every nonempty
expected value. -/
theorem C5_missing_header (regexTest : String → String → Bool)
    (resp : ResponseDesc) (name value : String) (t : Nat)
    (body : Option String) (h : resp.headers name = none) :
    (evaluateAssertions regexTest [.header name .is value] resp t body = [] ↔
      value = "") ∧
    (evaluateAssertions regexTest [.header name .isNot value] resp t body = [] ↔
      ¬value = "") ∧
    (¬evaluateAssertions regexTest [.header name .contains value] resp t body
      = []) ∧
    (evaluateAssertions regexTest [.header name .notContains value] resp t
      body = [] ↔ ¬value = "") := by
  refine ⟨?_, ?_, ?_, ?_⟩ <;>
    simp only [evaluateAssertions, evaluateAssertion, h, Option.getD_none,
      Option.isNone_none, evaluateStringAssertion]
  · constructor
    · intro he
      by_contra hv
      have : ¬("" = value) := fun hv' => hv hv'.symm
      simp [this] at he
    · intro hv
      simp [hv]
  · constructor
    · intro he hv
      simp [hv] at he
    · intro hv
      have : ¬("" = value) := fun hv' => hv hv'.symm
      simp [this]
  · simp
  · constructor
    · intro he hv
      subst hv
      rw [show strIncludes "" "" = true from rfl] at he
      simp at he
    · intro hv
      have : ¬(strIncludes "" value = true) := fun hinc =>
        hv ((strIncludes_empty_iff value).mp hinc)
      simp [this]

/-- C5 witness: the amended behaviour evaluated against a concrete response
with no headers and expected value "x". -/
theorem C5_missing_header_witness :
    ¬evaluateAssertions regexFalse [.header "x-h" .contains "x"]
      respNoHeaders 100 none = [] ∧
    (evaluateAssertions regexFalse [.header "x-h" .notContains "x"]
      respNoHeaders 100 none = [] ↔ ¬(("x" : String) = "")) := by
  have h := C5_missing_header regexFalse respNoHeaders "x-h" "x" 100 none rfl
  exact ⟨h.2.2.1, h.2.2.2⟩

/-! ## Assertion evaluator list structure (C7) -/

/-- C7: `evaluateAssertions` evaluates every assertion independently with no
short-circuit and pushes exactly one failure string per failing assertion:
the result is empty iff every assertion passes, and its length equals the
number of failing assertions. -/
theorem C7_all_failures_collected (regexTest : String → String → Bool)
    (assertions : List Assertion) (resp : ResponseDesc) (t : Nat)
    (body : Option String) :
    (evaluateAssertions regexTest assertions resp t body = [] ↔
      ∀ a ∈ assertions, evaluateAssertion regexTest resp t body a = none) ∧
    (evaluateAssertions regexTest assertions resp t body).length =
      assertions.countP
        (fun a => (evaluateAssertion regexTest resp t body a).isSome) := by
  induction assertions with
  | nil => simp [evaluateAssertions]
  | cons a rest ih =>
    cases hav : evaluateAssertion regexTest resp t body a with
    | some f => simp [evaluateAssertions, hav, List.countP_cons, ih.2]
    | none => simp [evaluateAssertions, hav, List.countP_cons, ih.1, ih.2]

/-- C7 witness: with two failing assertions (expected status 503 against a
200 response, and a response-time bound met exactly), the evaluator returns
exactly as many failure strings as there are failing assertions. -/
theorem C7_all_failures_collected_witness :
    (evaluateAssertions regexFalse
      [Assertion.statusCode CodeOp.is 503, Assertion.responseTime 100]
      respNoHeaders 100 none).length =
    List.countP
      (fun a => (evaluateAssertion regexFalse respNoHeaders 100 none a).isSome)
      [Assertion.statusCode CodeOp.is 503, Assertion.responseTime 100] :=
  (C7_all_failures_collected regexFalse
    [Assertion.statusCode CodeOp.is 503, Assertion.responseTime 100]
    respNoHeaders 100 none).2

/-! ## Body capture bound (C6) -/

theorem readBodyLoop_bound (c : Nat) :
    ∀ (chunks : List (List Nat)) (total : Nat),
      (∀ ch ∈ chunks, ch.length ≤ c) →
      (readBodyLoop chunks total).length + total < MAX_BODY_SIZE + c ∨
      readBodyLoop chunks total = [] := by
  intro chunks
  induction chunks with
  | nil => intro total _; exact Or.inr rfl
  | cons ch rest ih =>
    intro total h
    by_cases ht : total < MAX_BODY_SIZE
    · left
      have hstep : readBodyLoop (ch :: rest) total =
          ch ++ readBodyLoop rest (total + ch.length) := by
        simp [readBodyLoop, ht]
      rw [hstep, List.length_append]
      have hch : ch.length ≤ c := h ch (List.mem_cons_self ch rest)
      rcases ih (total + ch.length)
          (fun x hx => h x (List.mem_cons_of_mem ch hx)) with hl | hr
      · omega
      · rw [hr]
        simp only [List.length_nil]
        omega
    · right
      simp [readBodyLoop, ht]

/-- C6 counterexample: a single 65537-byte chunk is captured whole, so the
body handed to the assertion evaluator exceeds the 64 KiB
(`MAX_BODY_SIZE = 65536`) ceiling. -/
theorem C6_counterexample :
    ¬((readBodyCapped [List.replicate 65537 0]).length ≤ MAX_BODY_SIZE) := by
  have h0 : (0 : Nat) < MAX_BODY_SIZE := by norm_num [MAX_BODY_SIZE]
  have h1 : readBodyCapped [List.replicate 65537 (0 : Nat)] =
      List.replicate 65537 (0 : Nat) := by
    show readBodyLoop [List.replicate 65537 (0 : Nat)] 0 = _
    rw [readBodyLoop, if_pos h0, readBodyLoop, List.append_nil]
  rw [h1, List.length_replicate, MAX_BODY_SIZE]
  norm_num

/-- C6 (amended): the probe executor reads the response body iff at least
one configured assertion is a body assertion, and the capture loop stops
requesting chunks once 64 KiB have accumulated but appends whole chunks, so
the captured body is bounded by `MAX_BODY_SIZE` plus the largest chunk
(strictly less than `MAX_BODY_SIZE + c` when every chunk is at most `c`
bytes), not by `MAX_BODY_SIZE` itself. -/
theorem C6_body_read_iff_needed_and_capped :
    (∀ (decode : List Nat → String) (check : CheckConfig)
      (response : FetchResponse),
      (executeCheckBody decode check response).isSome = true ↔
        ∃ a ∈ check.assertions, isBodyAssertion a = true) ∧
    (∀ (c : Nat) (chunks : List (List Nat)),
      (∀ ch ∈ chunks, ch.length ≤ c) →
      (readBodyCapped chunks).length < MAX_BODY_SIZE + c) := by
  constructor
  · intro decode check response
    by_cases hn : needsBody check.assertions
    · simp only [executeCheckBody, hn, if_true, Option.isSome_some]
      simpa [needsBody, List.any_eq_true] using hn
    · have hbody : executeCheckBody decode check response = none := by
        simp [executeCheckBody, hn]
      rw [hbody]
      simp only [Option.isSome_none, Bool.false_eq_true, false_iff]
      intro hex
      exact hn (by simpa [needsBody, List.any_eq_true] using hex)
  · intro c chunks h
    rcases readBodyLoop_bound c chunks 0 h with hl | hr
    · rw [readBodyCapped]
      omega
    · rw [readBodyCapped, hr]
      simp only [List.length_nil]
      norm_num [MAX_BODY_SIZE]

/-- C6 witness: a check with a body assertion does read the body, and a
stream of one 3-byte chunk is captured below `MAX_BODY_SIZE + 3`. -/
theorem C6_body_read_iff_needed_and_capped_witness :
    (executeCheckBody decodeNil bodyCfg resp3).isSome = true ∧
    (readBodyCapped [[1, 2, 3]]).length < MAX_BODY_SIZE + 3 := by
  constructor
  · exact (C6_body_read_iff_needed_and_capped.1 decodeNil bodyCfg resp3).mpr
      (by decide)
  · exact C6_body_read_iff_needed_and_capped.2 3 [[1, 2, 3]] (by decide)

/-! ## Timeout classification (C8) -/

theorem charsStartWith_refl_append (pat rest : List Char) :
    charsStartWith pat (pat ++ rest) = true := by
  induction pat with
  | nil => rfl
  | cons c cs ih => simp [charsStartWith, ih]

theorem charsInclude_append_self (pat : List Char) :
    ∀ (x y : List Char), charsInclude pat (x ++ (pat ++ y)) = true := by
  intro x
  induction x with
  | nil =>
    intro y
    rw [List.nil_append]
    have hsw := charsStartWith_refl_append pat y
    cases hp : pat ++ y with
    | nil =>
      obtain ⟨hp1, _⟩ := List.append_eq_nil.mp hp
      subst hp1
      rfl
    | cons c rest =>
      rw [hp] at hsw
      simp [charsInclude, hsw]
  | cons c cs ih =>
    intro y
    rw [List.cons_append, charsInclude, ih y]
    simp

/-- C8: an aborted probe attempt (the thrown message contains 'abort', as
the platform AbortController error does) is reported as success = false,
statusCode = null, with the distinct error string `Timeout after Nms`
containing the configured timeout value; any other thrown message is
reported verbatim, so the fixed timeout format is applied exactly to
aborted attempts. -/
theorem C8_timeout_distinct (check : CheckConfig) (rtMs : Nat) (m : String) :
    (strIncludes m "abort" = true →
      executeCheckCatch check rtMs m =
        { id := check.id, success := false, statusCode := none,
          responseTimeMs := rtMs,
          error := some (timeoutErrorMessage check.timeout_ms) }) ∧
    strIncludes (timeoutErrorMessage check.timeout_ms)
      (toString check.timeout_ms) = true ∧
    (strIncludes m "abort" = false →
      (executeCheckCatch check rtMs m).error = some m) := by
  refine ⟨?_, ?_, ?_⟩
  · intro h
    simp [executeCheckCatch, h]
  · rw [timeoutErrorMessage, strIncludes]
    have hl : ("Timeout after " ++ toString check.timeout_ms ++ "ms").toList =
        "Timeout after ".toList ++
          ((toString check.timeout_ms).toList ++ "ms".toList) := by
      simp [String.toList]
    rw [hl]
    exact charsInclude_append_self _ _ _
  · intro h
    simp [executeCheckCatch, h]

/-- C8 witness: the platform abort message is classified as a timeout with
the configured 10000ms value in the error, while a DNS failure message is
reported verbatim. -/
theorem C8_timeout_distinct_witness :
    executeCheckCatch (mkCfg "c") 123 "The operation was aborted" =
      { id := "c", success := false, statusCode := none,
        responseTimeMs := 123, error := some "Timeout after 10000ms" } ∧
    (executeCheckCatch (mkCfg "c") 123 "DNS resolution failed").error =
      some "DNS resolution failed" := by
  constructor
  · rw [(C8_timeout_distinct (mkCfg "c") 123 "The operation was aborted").1
      (by decide)]
    decide
  · exact (C8_timeout_distinct (mkCfg "c") 123 "DNS resolution failed").2.2
      (by decide)

/-! ## Metrics-write failure aborts the tick (C9) -/

/-- C9: contrary to the spec, a failure raised by the Analytics Engine
`writeDataPoint` call is not swallowed: with the metrics binding present and
`writeDataPoint` throwing for the first of two checks, the tick propagates
the exception — the second target is never probed, no state is persisted,
and no side effect after the throwing call runs — whereas the identical
tick with a non-throwing metrics sink probes both targets and saves.  This
contradicts spec §4.4(d)/§7(4) and the `.catch`/`try` guards on every
sibling side effect. -/
theorem C9_metrics_write_unguarded :
    errorOf (runMonitoringChecks envMetricsThrow [mkCfg "c1", mkCfg "c2"]
      emptyMonState "t") = some "AE write failed" ∧
    traceOf (runMonitoringChecks envMetricsThrow [mkCfg "c1", mkCfg "c2"]
      emptyMonState "t") = [] ∧
    "probe:c2" ∈ traceOf (runMonitoringChecks envMetricsOk
      [mkCfg "c1", mkCfg "c2"] emptyMonState "t") ∧
    "save" ∈ traceOf (runMonitoringChecks envMetricsOk
      [mkCfg "c1", mkCfg "c2"] emptyMonState "t") := by
  refine ⟨by decide, by decide, by decide, by decide⟩

end Clawdwatch
